import Mathlib

/-
Verification of the Steane-code QEC demo repository.

The development shallowly embeds the decoding, encoding and statistics core
of the repository:

* `STEANE_SYNDROME_TABLE`, `decode_syndrome`, `apply_correction` from
  src/solution/segment_5_advanced/01_syndrome_decoding.py;
* the logical-zero encoding circuits from
  src/solution/segment_2_core_qec/03_multi_round_qec.py (naive gate order)
  and src/solution/segment_4_optimization/01_improved_encoding.py
  (depth-optimized gate order), together with the hard-coded
  `valid_codewords` readout set;
* the stabilizer supports of `measure_all_syndromes` and the induced
  single-error syndrome map;
* the power-law fit and its textual verdict from
  src/solution/segment_3_noise_analysis/02_error_scaling.py.

Machine integers of the source are modelled as `Nat`/`Int` (no overflow is
reachable in these scripts), Python tuples as products, Python dicts as
association lists in source order.
-/

/-- A 6-bit syndrome `(s1, s2, s3, s4, s5, s6)`: X-stabilizer bits first,
then Z-stabilizer bits, mirroring the tuple keys of
`STEANE_SYNDROME_TABLE`.  A source `0`/`1` becomes `false`/`true`. -/
abbrev Syndrome := Bool × Bool × Bool × Bool × Bool × Bool

/-- The decoder output, mirroring the Python pair
`(error_type, error_qubit) : (Optional[str], Optional[int])`. -/
abbrev DecodeResult := Option String × Option Int

/-- The syndrome lookup table of
src/solution/segment_5_advanced/01_syndrome_decoding.py lines 28-58,
transcribed entry by entry in source order. -/
def STEANE_SYNDROME_TABLE : List (Syndrome × DecodeResult) :=
  [ ((false, false, false, false, false, false), (none, none)),
    -- single X errors (detected by Z stabilizers)
    ((false, false, false, true , true , true ), (some "X", some 0)),
    ((false, false, false, true , true , false), (some "X", some 1)),
    ((false, false, false, true , false, true ), (some "X", some 2)),
    ((false, false, false, true , false, false), (some "X", some 3)),
    ((false, false, false, false, true , true ), (some "X", some 4)),
    ((false, false, false, false, true , false), (some "X", some 5)),
    ((false, false, false, false, false, true ), (some "X", some 6)),
    -- single Z errors (detected by X stabilizers)
    ((true , true , true , false, false, false), (some "Z", some 0)),
    ((true , true , false, false, false, false), (some "Z", some 1)),
    ((true , false, true , false, false, false), (some "Z", some 2)),
    ((true , false, false, false, false, false), (some "Z", some 3)),
    ((false, true , true , false, false, false), (some "Z", some 4)),
    ((false, true , false, false, false, false), (some "Z", some 5)),
    ((false, false, true , false, false, false), (some "Z", some 6)),
    -- single Y errors (detected by both)
    ((true , true , true , true , true , true ), (some "Y", some 0)),
    ((true , true , false, true , true , false), (some "Y", some 1)),
    ((true , false, true , true , false, true ), (some "Y", some 2)),
    ((true , false, false, true , false, false), (some "Y", some 3)),
    ((false, true , true , false, true , true ), (some "Y", some 4)),
    ((false, true , false, false, true , false), (some "Y", some 5)),
    ((false, false, true , false, false, true ), (some "Y", some 6)) ]

/-- The decoder `decode_syndrome` (lines 61-76): a dictionary lookup that
falls back to `('Unknown', -1)` for any syndrome not in the table. -/
def decode_syndrome (s : Syndrome) : DecodeResult :=
  match STEANE_SYNDROME_TABLE.find? (fun e => e.1 == s) with
  | some e => e.2
  | none => (some "Unknown", some (-1))

/-- The ordered supports of the three X-type stabilizers S1, S2, S3
measured by `measure_all_syndromes` (lines 107-129). -/
def x_stabilizer_supports : List (List Nat) :=
  [[0, 1, 2, 3], [0, 1, 4, 5], [0, 2, 4, 6]]

/-- The ordered supports of the three Z-type stabilizers S4, S5, S6
measured by `measure_all_syndromes` (lines 131-147). -/
def z_stabilizer_supports : List (List Nat) :=
  [[0, 1, 2, 3], [0, 1, 4, 5], [0, 2, 4, 6]]

/-- Whether an X-type stabilizer detects an error of the given kind
(X-type generators anticommute with Z and Y errors on their support). -/
def xTypeDetects (kind : String) : Bool := kind == "Z" || kind == "Y"

/-- Whether a Z-type stabilizer detects an error of the given kind
(Z-type generators anticommute with X and Y errors on their support). -/
def zTypeDetects (kind : String) : Bool := kind == "X" || kind == "Y"

/-- Bit contributed by generator `i` of the given support list for a
single error of kind `kind` on qubit `q`: set iff the generator detects
that kind and `q` lies in its support. -/
def generatorBit (detects : Bool) (supports : List (List Nat)) (i q : Nat) : Bool :=
  detects && (supports.getD i []).contains q

/-- The syndrome produced by a single error of kind `kind` on qubit `q`
under the measurement order implemented by `measure_all_syndromes`:
bits 1-3 from the X-type stabilizers, bits 4-6 from the Z-type ones. -/
def syndromeOf (kind : String) (q : Nat) : Syndrome :=
  ( generatorBit (xTypeDetects kind) x_stabilizer_supports 0 q,
    generatorBit (xTypeDetects kind) x_stabilizer_supports 1 q,
    generatorBit (xTypeDetects kind) x_stabilizer_supports 2 q,
    generatorBit (zTypeDetects kind) z_stabilizer_supports 0 q,
    generatorBit (zTypeDetects kind) z_stabilizer_supports 1 q,
    generatorBit (zTypeDetects kind) z_stabilizer_supports 2 q )

/-- A gate of the encoding circuits: Hadamard on one qubit, or a CNOT with
control `c` and target `t`. -/
inductive Gate
  | h (q : Nat)
  | cx (c t : Nat)
deriving DecidableEq

/-- The gate list of `prepare_steane_logical_zero`
(src/solution/segment_2_core_qec/03_multi_round_qec.py lines 22-40; the
same gate sequence appears verbatim in segment 2.2, segment 3.2 and
segment 5.1). -/
def prepare_steane_logical_zero_gates : List Gate :=
  [ Gate.h 0, Gate.h 1, Gate.h 2,
    Gate.cx 0 3, Gate.cx 1 3,
    Gate.cx 0 4, Gate.cx 2 4,
    Gate.cx 1 5, Gate.cx 2 5,
    Gate.cx 0 6, Gate.cx 1 6, Gate.cx 2 6 ]

/-- The gate list of `optimized_steane_encoding`
(src/solution/segment_4_optimization/01_improved_encoding.py lines 22-56):
the same H layer followed by three depth-optimized CNOT layers. -/
def optimized_steane_encoding_gates : List Gate :=
  [ Gate.h 0, Gate.h 1, Gate.h 2,
    Gate.cx 0 3, Gate.cx 1 5, Gate.cx 2 4,
    Gate.cx 0 4, Gate.cx 1 3, Gate.cx 2 5,
    Gate.cx 0 6, Gate.cx 1 6, Gate.cx 2 6 ]

/-- Basis-state semantics of the encoding circuits.  Every Hadamard in
these circuits acts on a qubit still in `|0⟩`, and every later gate is a
CNOT, i.e. a permutation of the computational basis.  The resulting state
is therefore a uniform superposition, over all choices of one branch bit
per Hadamard, of the classical propagation of the CNOTs; sampling the
circuit returns exactly those propagated bitstrings (each with equal
probability).  `runGates gates bs s` consumes one bit of `bs` per
Hadamard (setting that qubit to the branch bit) and applies each CNOT as
a classical xor update. -/
def runGates : List Gate → List Bool → (Nat → Bool) → (Nat → Bool)
  | [], _, s => s
  | Gate.h q :: rest, bs, s =>
      runGates rest bs.tail (fun i => if i = q then bs.headD false else s i)
  | Gate.cx c t :: rest, bs, s =>
      runGates rest bs (fun i => if i = t then xor (s t) (s c) else s i)

/-- The all-zero initial register (`squin.qalloc(7)` yields `|0…0⟩`). -/
def zeroState : Nat → Bool := fun _ => false

/-- The 7-bit readout of a gate list run from the all-zero state with the
given Hadamard branch bits, in measurement order `q[0] … q[6]`. -/
def outcomeBits (gates : List Gate) (bs : List Bool) : List Bool :=
  (List.range 7).map (runGates gates bs zeroState)

/-- Readout of the naive encoding circuit on Hadamard branch `(a, b, c)`
for qubits 0, 1, 2. -/
def prepare_steane_logical_zero_outcome (a b c : Bool) : List Bool :=
  outcomeBits prepare_steane_logical_zero_gates [a, b, c]

/-- Readout of the depth-optimized encoding circuit on Hadamard branch
`(a, b, c)`. -/
def optimized_steane_encoding_outcome (a b c : Bool) : List Bool :=
  outcomeBits optimized_steane_encoding_gates [a, b, c]

/-- The hard-coded `valid_codewords` set (identical literals in
segment 2.3, segment 3.2, segment 4.1 and segment 5.1), each 7-character
string transcribed digit by digit, `'1'` as `true`. -/
def valid_codewords : List (List Bool) :=
  [ [false, false, false, false, false, false, false],  -- 0000000
    [false, false, false, true , true , true , true ],  -- 0001111
    [false, true , true , false, false, true , true ],  -- 0110011
    [false, true , true , true , true , false, false],  -- 0111100
    [true , false, true , false, true , false, true ],  -- 1010101
    [true , false, true , true , false, true , false],  -- 1011010
    [true , true , false, false, true , true , false],  -- 1100110
    [true , true , false, true , false, false, true ] ] -- 1101001

/-- The two-element list of branch-bit values, used to enumerate
Hadamard branches and syndromes. -/
def allBools : List Bool := [false, true]

/-- All eight Hadamard branch triples of the encoding circuits. -/
def allBranchTriples : List (Bool × Bool × Bool) :=
  allBools.flatMap fun a => allBools.flatMap fun b => allBools.map fun c => (a, b, c)

/-- All 64 six-bit syndromes. -/
def allSyndromes : List Syndrome :=
  allBools.flatMap fun a => allBools.flatMap fun b => allBools.flatMap fun c =>
  allBools.flatMap fun d => allBools.flatMap fun e => allBools.map fun f =>
  (a, b, c, d, e, f)

/-- A single-qubit Pauli correction gate, as emitted by
`apply_correction` via `squin.x` / `squin.y` / `squin.z`. -/
inductive PauliGate
  | x (q : Int)
  | y (q : Int)
  | z (q : Int)
deriving DecidableEq

/-- The correction kernel `apply_correction` (lines 152-168), modelled as
the list of Pauli gates it emits: an if/elif chain on the error type, in
source order X, Z, Y, and no gate at all for `None` or `'Unknown'`
("If None or Unknown, do nothing"). -/
def apply_correction (error_type : Option String) (qubit_idx : Int) : List PauliGate :=
  if error_type = some "X" then [PauliGate.x qubit_idx]
  else if error_type = some "Z" then [PauliGate.z qubit_idx]
  else if error_type = some "Y" then [PauliGate.y qubit_idx]
  else []

/-- Effect of one Pauli gate on a register tracked as a per-qubit pair of
bit-flip and phase-flip toggles (the Pauli frame of the data register). -/
def applyPauli (g : PauliGate) (s : Int → Bool × Bool) : Int → Bool × Bool :=
  match g with
  | PauliGate.x q => fun i => if i = q then (!(s i).1, (s i).2) else s i
  | PauliGate.y q => fun i => if i = q then (!(s i).1, !(s i).2) else s i
  | PauliGate.z q => fun i => if i = q then ((s i).1, !(s i).2) else s i

/-- Effect of a list of correction gates on the data register. -/
def runCorrection (gs : List PauliGate) (s : Int → Bool × Bool) : Int → Bool × Bool :=
  gs.foldl (fun st g => applyPauli g st) s

/-- The qubit a Pauli correction gate acts on. -/
def pauliTarget : PauliGate → Int
  | PauliGate.x q => q
  | PauliGate.y q => q
  | PauliGate.z q => q

/-- The least-squares slope of `plot_error_scaling`
(src/solution/segment_3_noise_analysis/02_error_scaling.py lines 211-219),
applied to the already log-transformed data points: means of both
coordinate lists, covariance-style numerator, variance denominator, and
the source's fallback `power = 1.0` when the denominator is zero.  The
source computes with Python floats; the same arithmetic is carried out
here exactly over `ℚ`. -/
def fitPower (log_p log_l : List ℚ) : ℚ :=
  let n : ℚ := log_p.length
  let mean_x := log_p.sum / n
  let mean_y := log_l.sum / n
  let num := ((log_p.zip log_l).map (fun xy => (xy.1 - mean_x) * (xy.2 - mean_y))).sum
  let den := (log_p.map (fun x => (x - mean_x) ^ 2)).sum
  if den ≠ 0 then num / den else 1

/-- The interpretation branch of `plot_error_scaling` (lines 228-235):
the exact strings printed for fitted exponents below, at, and above 1. -/
def scalingVerdict (power : ℚ) : String :=
  if power < 1 then "Power < 1: QEC provides benefit (suppresses errors)"
  else if power = 1 then "Power = 1: No QEC benefit (L = aP)"
  else "Power > 1: QEC amplifies errors (not working)"

/-- One row of the ratio column of the data table printed by
`plot_error_scaling` (line 203): `ratio = l / p if p > 0 else 0`. -/
def ratioEntry (p l : ℚ) : ℚ := if 0 < p then l / p else 0

/-- Definedness of Python's `math.log` (wrapped as `_log`, lines 263-266):
it raises `ValueError` exactly on non-positive input. -/
def mathLogOk (x : ℚ) : Bool := decide (0 < x)

/-- Whether `plot_error_scaling` raises while building its regression
inputs: lines 208-209 apply `_log` to every physical and every logical
rate, with no filtering, so the call raises iff some rate is
non-positive. -/
def plotAnalysisRaises (physical_errors logical_errors : List ℚ) : Bool :=
  !(physical_errors.all mathLogOk && logical_errors.all mathLogOk)

/-- The syndrome keys of the lookup table, in source order. -/
def tableKeys : List Syndrome := STEANE_SYNDROME_TABLE.map Prod.fst

/-- The all-zero (no-error) syndrome. -/
def zeroSyndrome : Syndrome := (false, false, false, false, false, false)

/-- Whether a decoder result is the no-error result `(None, None)`. -/
def isNoError (r : DecodeResult) : Bool := r == ((none : Option String), (none : Option Int))

/-- Whether a decoder result names a single-qubit error: a kind among
X, Y, Z together with a qubit index in `[0, 7)`. -/
def isSingleQubitResult (r : DecodeResult) : Bool :=
  match r with
  | (some k, some q) =>
      (k == "X" || k == "Y" || k == "Z") && (decide (0 ≤ q) && decide (q < 7))
  | _ => false

/-- Whether a decoder result is the uncorrectable fallback
`('Unknown', -1)`. -/
def isUncorrectable (r : DecodeResult) : Bool := r == (some "Unknown", some (-1))

/-- How many of the three decoder-result categories a result satisfies. -/
def categoryCount (r : DecodeResult) : Nat :=
  (if isNoError r then 1 else 0) + (if isSingleQubitResult r then 1 else 0) +
    (if isUncorrectable r then 1 else 0)

/-- The number of 6-bit syndromes the decoder maps to something other
than the uncorrectable fallback. -/
def nonUncorrectableCount : Nat :=
  (allSyndromes.filter (fun s => !isUncorrectable (decode_syndrome s))).length

/-- The 14 syndromes the table lists for single X and single Z errors,
computed through the stabilizer supports. -/
def singleXZSyndromes : List Syndrome :=
  ["X", "Z"].flatMap fun k => (List.range 7).map fun q => syndromeOf k q

/-- The table syndrome registered for a given error kind and qubit, read
off by searching the table's values. -/
def tableSyndromeFor (kind : String) (q : Int) : Option Syndrome :=
  (STEANE_SYNDROME_TABLE.find? (fun e => e.2 == ((some kind : Option String), some q))).map Prod.fst

/-- Componentwise xor of two syndromes. -/
def synXor (a b : Syndrome) : Syndrome :=
  ( xor a.1 b.1, xor a.2.1 b.2.1, xor a.2.2.1 b.2.2.1,
    xor a.2.2.2.1 b.2.2.2.1, xor a.2.2.2.2.1 b.2.2.2.2.1,
    xor a.2.2.2.2.2 b.2.2.2.2.2 )

/-- Whether the first (X-stabilizer) half of a syndrome is nonzero. -/
def xHalfNonzero (s : Syndrome) : Bool := s.1 || s.2.1 || s.2.2.1

/-- Whether the second (Z-stabilizer) half of a syndrome is nonzero. -/
def zHalfNonzero (s : Syndrome) : Bool := s.2.2.2.1 || s.2.2.2.2.1 || s.2.2.2.2.2

/-- For qubit `q`: the table holds X, Z and Y entries, the Y syndrome is
the componentwise xor of the X and Z ones, and both halves of the Y
syndrome are nonzero. -/
def ySyndromeConsistent (q : Int) : Bool :=
  match tableSyndromeFor "X" q, tableSyndromeFor "Z" q, tableSyndromeFor "Y" q with
  | some sx, some sz, some sy => sy == synXor sx sz && xHalfNonzero sy && zHalfNonzero sy
  | _, _, _ => false

/-- Helper: a single Pauli gate leaves every qubit other than its target
unchanged. -/
theorem applyPauli_other (g : PauliGate) (s : Int → Bool × Bool) (i : Int)
    (h : i ≠ pauliTarget g) : applyPauli g s i = s i := by
  cases g <;> exact if_neg h

/-- C1: the claim says every noiseless readout of the logical-zero
encoding circuit lies in `valid_codewords`.  The code violates this: on
Hadamard branch `(0,0,1)` the circuit reads out `0010111`, which is not
in `valid_codewords`, and over the eight equiprobable branches only four
readouts are valid, so the noiseless round trip reports fidelity `1/2`,
not `1`. -/
theorem C1_encoding_escapes_valid_codewords :
    prepare_steane_logical_zero_outcome false false true =
      [false, false, true, false, true, true, true] ∧
    prepare_steane_logical_zero_outcome false false true ∉ valid_codewords ∧
    ((allBranchTriples.map fun t =>
        prepare_steane_logical_zero_outcome t.1 t.2.1 t.2.2).filter
      (fun w => valid_codewords.contains w)).length = 4 ∧
    allBranchTriples.length = 8 := by decide

/-- C2 counterexample: decoding syndrome `(1,0,1,1,0,1)` does not yield
an X error on qubit 2; the implemented table decodes it to a Y error on
qubit 2. -/
theorem C2_syndrome_101101_decodes_to_Y2 :
    decode_syndrome (true, false, true, true, false, true) = (some "Y", some 2) ∧
    decode_syndrome (true, false, true, true, false, true) ≠ (some "X", some 2) := by decide

/-- C2 as amended: under the implemented stabilizer supports, an X error
on qubit 2 produces syndrome `(0,0,0,1,0,1)`, which decodes to
`('X', 2)`; syndrome `(1,0,1,1,0,1)` decodes to `('Y', 2)`; a Z error on
qubit 3 produces `(1,0,0,0,0,0)`, decoding to `('Z', 3)`; and the
all-zero syndrome decodes to the no-error result. -/
theorem C2_amended_concrete_pairs :
    syndromeOf "X" 2 = (false, false, false, true, false, true) ∧
    decode_syndrome (syndromeOf "X" 2) = (some "X", some 2) ∧
    decode_syndrome (true, false, true, true, false, true) = (some "Y", some 2) ∧
    syndromeOf "Z" 3 = (true, false, false, false, false, false) ∧
    decode_syndrome (syndromeOf "Z" 3) = (some "Z", some 3) ∧
    decode_syndrome zeroSyndrome = (none, none) := by decide

/-- C3: the claim says a fitted exponent `β > 1` is reported as error
suppression.  The code's branch is inverted: on log-log data points
`(-2,-4), (-1,-2)` (i.e. `L = p²`, so `L < p` pointwise) the fit returns
`β = 2` and the analysis prints the amplification verdict. -/
theorem C3_beta_two_reported_as_amplification :
    fitPower [-2, -1] [-4, -2] = 2 ∧
    scalingVerdict (fitPower [-2, -1] [-4, -2]) =
      "Power > 1: QEC amplifies errors (not working)" := by
  have h : fitPower [-2, -1] [-4, -2] = 2 := by norm_num [fitPower]
  refine ⟨h, ?_⟩
  rw [h]
  unfold scalingVerdict
  rw [if_neg (by norm_num), if_neg (by norm_num)]

/-- C4: for every qubit `q < 7`, the syndrome of a single X error on `q`
(built from the implemented stabilizer supports) decodes to `('X', q)`,
the syndrome of a single Z error decodes to `('Z', q)`, and the fourteen
syndromes so produced are pairwise distinct. -/
theorem C4_single_errors_decode_correctly :
    (∀ q : Fin 7,
      decode_syndrome (syndromeOf "X" q.val) = (some "X", some (q.val : Int)) ∧
      decode_syndrome (syndromeOf "Z" q.val) = (some "Z", some (q.val : Int))) ∧
    singleXZSyndromes.Nodup := by decide

/-- C5 counterexample: the table also carries all seven Y entries, so 22
syndromes (not 1 + 14 = 15) decode to a non-uncorrectable result; e.g.
`(1,1,1,1,1,1)` decodes to `('Y', 0)`. -/
theorem C5_decodable_count_is_22_not_15 :
    decode_syndrome (true, true, true, true, true, true) = (some "Y", some 0) ∧
    nonUncorrectableCount = 22 ∧ ¬ nonUncorrectableCount = 15 := by decide

/-- C5 as amended: the decoder is a total function on 6-bit syndromes —
every syndrome falls in exactly one of the categories no-error,
single-qubit `(kind, qubit)` with kind in X/Y/Z and qubit in `[0,7)`, or
the uncorrectable `('Unknown', -1)` — and exactly 1 + 21 = 22 syndromes
(no-error plus 7 qubits times the three kinds X, Z, Y) map to a
non-uncorrectable result. -/
theorem C5_decode_total_with_22_decodable :
    (∀ s : Syndrome, categoryCount (decode_syndrome s) = 1) ∧
    nonUncorrectableCount = 22 := by decide

/-- C6: the lookup table's syndrome keys are pairwise distinct, its
non-no-error values name pairwise distinct single-qubit errors, every
entry is either the all-zero key or a single-qubit error, and every
syndrome that is not a table key decodes to the uncorrectable result. -/
theorem C6_table_injective_and_default :
    tableKeys.Nodup ∧
    ((STEANE_SYNDROME_TABLE.filter fun e => !isNoError e.2).map Prod.snd).Nodup ∧
    (STEANE_SYNDROME_TABLE.all fun e =>
      e.1 == zeroSyndrome || isSingleQubitResult e.2) = true ∧
    ∀ s : Syndrome, s ∉ tableKeys → decode_syndrome s = (some "Unknown", some (-1)) :=
  ⟨by decide, by decide, by decide, by decide⟩

/-- Witness for C6 at the concrete non-key syndrome `(1,1,1,0,0,1)`. -/
theorem C6_table_injective_and_default_witness :
    decode_syndrome (true, true, true, false, false, true) = (some "Unknown", some (-1)) :=
  C6_table_injective_and_default.2.2.2 (true, true, true, false, false, true) (by decide)

/-- C7: the naive and the depth-optimized logical-zero encoding circuits
produce the same 7-bit readout on every assignment of the three Hadamard
branch bits, hence the same readout set and the same final state. -/
theorem C7_encoding_variants_agree :
    ∀ a b c : Bool,
      optimized_steane_encoding_outcome a b c =
        prepare_steane_logical_zero_outcome a b c := by decide

/-- C8: for a decode result whose kind is not X, Y or Z (in particular
the no-error and the uncorrectable results), `apply_correction` emits no
gate and leaves the data register unchanged; for kinds X, Y, Z it emits
exactly the one matching Pauli gate on the given qubit; and in every
case qubits other than the given one are untouched. -/
theorem C8_correction_policy (et : Option String) (qi : Int) (s : Int → Bool × Bool) :
    (et ∉ [some "X", some "Y", some "Z"] →
        apply_correction et qi = [] ∧ runCorrection (apply_correction et qi) s = s) ∧
    apply_correction (some "X") qi = [PauliGate.x qi] ∧
    apply_correction (some "Y") qi = [PauliGate.y qi] ∧
    apply_correction (some "Z") qi = [PauliGate.z qi] ∧
    ∀ i, i ≠ qi → runCorrection (apply_correction et qi) s i = s i := by
  refine ⟨?_, ?_, ?_, ?_, ?_⟩
  · intro h
    simp only [List.mem_cons, List.not_mem_nil, or_false] at h
    push_neg at h
    obtain ⟨h1, h2, h3⟩ := h
    have hnil : apply_correction et qi = [] := by
      unfold apply_correction
      rw [if_neg h1, if_neg h3, if_neg h2]
    exact ⟨hnil, by rw [hnil]; rfl⟩
  · unfold apply_correction
    rw [if_pos rfl]
  · unfold apply_correction
    rw [if_neg (by decide), if_neg (by decide), if_pos rfl]
  · unfold apply_correction
    rw [if_neg (by decide), if_pos rfl]
  · intro i hi
    by_cases h1 : et = some "X"
    · subst h1
      unfold apply_correction
      rw [if_pos rfl]
      exact applyPauli_other (PauliGate.x qi) s i hi
    by_cases h2 : et = some "Z"
    · subst h2
      unfold apply_correction
      rw [if_neg h1, if_pos rfl]
      exact applyPauli_other (PauliGate.z qi) s i hi
    by_cases h3 : et = some "Y"
    · subst h3
      unfold apply_correction
      rw [if_neg h1, if_neg h2, if_pos rfl]
      exact applyPauli_other (PauliGate.y qi) s i hi
    · unfold apply_correction
      rw [if_neg h1, if_neg h2, if_neg h3]
      rfl

/-- Witness for C8 at the uncorrectable decode result `('Unknown', -1)`
on the all-clear register. -/
theorem C8_correction_policy_witness :
    apply_correction (some "Unknown") (-1) = [] ∧
    runCorrection (apply_correction (some "Unknown") (-1)) (fun _ => (false, false)) =
      (fun _ => (false, false)) :=
  (C8_correction_policy (some "Unknown") (-1) (fun _ => (false, false))).1 (by decide)

/-- C9 counterexample: a zero physical error rate is reported in the
ratio table as the plain number `0` (not an undefined marker), and it is
not excluded from the log-log regression: with data point `p = 0`
present, `plot_error_scaling` applies `math.log` to `0` and raises, so
the analysis does fail on a zero-valued rate. -/
theorem C9_zero_rate_breaks_analysis :
    ratioEntry 0 (1 / 100) = 0 ∧
    plotAnalysisRaises [0, 1 / 100] [1 / 1000, 1 / 1000] = true := by
  constructor
  · simp [ratioEntry]
  · simp [plotAnalysisRaises, mathLogOk]

/-- C9 as amended: the ratio table guards division by zero by reporting
`0` when the physical rate is `0`, and the regression applies `log` to
every point unconditionally, succeeding exactly when all swept rates are
strictly positive (as they are in the repository's sweeps). -/
theorem C9_guard_and_positive_regression (ps ls : List ℚ) (l : ℚ)
    (hp : ∀ p ∈ ps, 0 < p) (hl : ∀ x ∈ ls, 0 < x) :
    ratioEntry 0 l = 0 ∧ plotAnalysisRaises ps ls = false := by
  constructor
  · simp [ratioEntry]
  · unfold plotAnalysisRaises
    have h1 : ps.all mathLogOk = true :=
      List.all_eq_true.mpr fun x hx => by
        simp only [mathLogOk, decide_eq_true_eq]
        exact hp x hx
    have h2 : ls.all mathLogOk = true :=
      List.all_eq_true.mpr fun x hx => by
        simp only [mathLogOk, decide_eq_true_eq]
        exact hl x hx
    rw [h1, h2]
    rfl

/-- Witness for C9 on the concrete positive sweep `p = [1/2]`,
`L = [1/3]`. -/
theorem C9_guard_and_positive_regression_witness :
    ratioEntry 0 (7 / 2) = 0 ∧ plotAnalysisRaises [1 / 2] [1 / 3] = false :=
  C9_guard_and_positive_regression [1 / 2] [1 / 3] (7 / 2) (by norm_num) (by norm_num)

/-- C10: for every qubit `q < 7` the table's Y-error syndrome equals the
componentwise xor of its X-error and Z-error syndromes for the same
qubit, and both the X-stabilizer half and the Z-stabilizer half of that
Y syndrome are nonzero. -/
theorem C10_y_syndromes_are_xor :
    ∀ q : Fin 7, ySyndromeConsistent (q.val : Int) = true := by decide
